import Mathlib

/-!
Verification of the adjust-sound-volume add-on: a shallow embedding of
`config.py`, `hook.py` and `ui.py`, with theorems settling the frozen
claims about configuration loading, volume/mute/boost control, speed
quantization, shortcut validation and the playback hook.
-/

/-- A Python value as it can occur in the raw add-on configuration
mapping: ints, floats (modelled exactly as rationals), bools, strings,
dicts (modelled as association lists) and `None`. -/
inductive PyVal where
  | vInt (n : Int)
  | vFloat (q : Rat)
  | vBool (b : Bool)
  | vStr (s : String)
  | vDict (d : List (String × PyVal))
  | vNone

/-- Python dict lookup `d.get(k, dflt)`: the stored value when the key is
present, the supplied default otherwise. -/
def dictGet : List (String × PyVal) → String → PyVal → PyVal
  | [], _, dflt => dflt
  | p :: rest, k, dflt => if p.1 = k then p.2 else dictGet rest k dflt

/-- Lookup `d[k]` without a default, as an `Option`. -/
def dictLookup : List (String × PyVal) → String → Option PyVal
  | [], _ => none
  | p :: rest, k => if p.1 = k then some p.2 else dictLookup rest k

/-- Replace the value stored under `k` (wherever the key occurs),
leaving all other entries unchanged. -/
def dictSet (d : List (String × PyVal)) (k : String) (v : PyVal) :
    List (String × PyVal) :=
  d.map (fun p => if p.1 = k then (p.1, v) else p)

/-- Whether a Python value is a dict (`isinstance(v, dict)`). -/
def PyVal.isDict : PyVal → Bool
  | .vDict _ => true
  | _ => false

/-- The digits of a decimal numeral as a natural number; `none` when the
list is empty or holds a non-digit character. -/
def natOfDigits (cs : List Char) : Option Nat :=
  if cs = [] then none
  else if cs.all Char.isDigit then
    some (cs.foldl (fun n c => 10 * n + (c.toNat - 48)) 0)
  else none

/-- Python `int(s)` on a string: an optional sign followed by digits;
anything else raises, modelled as `none`. -/
def pyStrToInt (s : String) : Option Int :=
  match s.toList with
  | '-' :: rest => (natOfDigits rest).map (fun n => -(n : Int))
  | '+' :: rest => (natOfDigits rest).map (fun n => (n : Int))
  | cs => (natOfDigits cs).map (fun n => (n : Int))

/-- Split a character list at every dot, keeping empty segments, as
`str.split('.')` does. -/
def splitOnDot : List Char → List (List Char)
  | [] => [[]]
  | c :: rest =>
    let r := splitOnDot rest
    if c = '.' then [] :: r
    else (c :: r.headD []) :: r.tail

/-- Python `float(s)` on a string: an optional sign, an integer part and
an optional fractional part; non-numeric strings raise, modelled as
`none`. The value `±(ip.fp)` is assembled as the exact rational
`±(ip·10^|fp| + fp) / 10^|fp|`. -/
def pyStrToFloat (s : String) : Option Rat :=
  let signed : Int × List Char :=
    match s.toList with
    | '-' :: rest => (-1, rest)
    | '+' :: rest => (1, rest)
    | cs => (1, cs)
  match splitOnDot signed.2 with
  | [ip] => (natOfDigits ip).map (fun n => mkRat (signed.1 * n) 1)
  | [ip, fp] =>
    if ip = [] ∧ fp = [] then none
    else
      let ipn : Option Nat := if ip = [] then some 0 else natOfDigits ip
      let fpn : Option Nat := if fp = [] then some 0 else natOfDigits fp
      match ipn, fpn with
      | some a, some b =>
        some (mkRat (signed.1 * (a * 10 ^ fp.length + b)) (10 ^ fp.length))
      | _, _ => none
  | _ => none

/-- Truncation of a rational toward zero, as Python `int(float)` does. -/
def ratTruncate (q : Rat) : Int :=
  if 0 ≤ q then ⌊q⌋ else ⌈q⌉

/-- Python `int(v)`: ints pass through, bools become 0/1, floats are
truncated toward zero, strings are parsed; dicts and `None` raise,
modelled as `none`. -/
def pyInt : PyVal → Option Int
  | .vInt n => some n
  | .vBool b => some (if b then 1 else 0)
  | .vFloat q => some (ratTruncate q)
  | .vStr s => pyStrToInt s
  | .vDict _ => none
  | .vNone => none

/-- Python `float(v)`: ints and bools are converted, floats pass
through, strings are parsed; dicts and `None` raise. -/
def pyFloat : PyVal → Option Rat
  | .vInt n => some (n : Rat)
  | .vBool b => some (if b then 1 else 0)
  | .vFloat q => some q
  | .vStr s => pyStrToFloat s
  | .vDict _ => none
  | .vNone => none

/-- Python truthiness, `bool(v)`: zero numbers, the empty string, the
empty dict, `False` and `None` are falsy, everything else truthy. -/
def pyBool : PyVal → Bool
  | .vInt n => n != 0
  | .vFloat q => q != 0
  | .vBool b => b
  | .vStr s => s != ""
  | .vDict d => !d.isEmpty
  | .vNone => false

/-- Python `str(v)` (only its value on strings matters for the loader;
other representations are schematic). -/
def pyStr : PyVal → String
  | .vStr s => s
  | .vInt n => toString n
  | .vBool b => if b then "True" else "False"
  | .vFloat q => toString q
  | .vDict _ => "{...}"
  | .vNone => "None"

/-- Dataclass `LoudnormConfig` from `config.py`: settings of the loudnorm filter,
with the dataclass defaults. -/
structure LoudnormConfig where
  enabled : Bool := false
  i : Int := -24
  dual_mono : Bool := false
deriving DecidableEq

/-- Dataclass `VolumeConfig` from `config.py`: the main volume configuration, with
the dataclass defaults. Python floats are modelled as rationals. -/
structure VolumeConfig where
  volume : Int := 100
  is_muted : Bool := false
  allow_volume_boost : Bool := false
  mute_shortcut : String := ""
  settings_shortcut : String := ""
  volume_up_shortcut : String := ""
  volume_down_shortcut : String := ""
  loudnorm : LoudnormConfig := {}
  playback_speed : Rat := 1
  speed_up_shortcut : String := ""
  speed_down_shortcut : String := ""
deriving DecidableEq

/-- The all-defaults configuration, `VolumeConfig()`. -/
def VolumeConfig.default : VolumeConfig := {}

/-- The all-defaults loudnorm section, `LoudnormConfig()`. -/
def LoudnormConfig.default : LoudnormConfig := {}

/-- One shortcut entry of the loader:
`str(value) if value else ""` applied to `addon_config.get(name, "")`. -/
def load_shortcut (d : List (String × PyVal)) (k : String) : String :=
  let value := dictGet d k (.vStr "")
  if pyBool value then pyStr value else ""

/-- The loudnorm block of `load_config`: `addon_config.get('loudnorm', {})`
is processed only when it is a dict; `bool` coercions cannot raise, the
`int` coercion of `i` can, aborting the load with the fields assigned so
far kept (the surrounding `except` returns the partially updated
config). -/
def load_loudnorm (ln : PyVal) (vc : VolumeConfig) : VolumeConfig :=
  match ln with
  | .vDict ld =>
    let vc := { vc with loudnorm :=
      { vc.loudnorm with enabled := pyBool (dictGet ld "enabled" (.vBool false)) } }
    match pyInt (dictGet ld "i" (.vInt (-24))) with
    | none => vc
    | some iv =>
      let vc := { vc with loudnorm := { vc.loudnorm with i := iv } }
      { vc with loudnorm :=
        { vc.loudnorm with dual_mono := pyBool (dictGet ld "dual_mono" (.vBool false)) } }
  | _ => vc

/-- Function `load_config` from `config.py`. The argument is what
`mw.addonManager.getConfig` returned. A non-dict resets to defaults; an
empty dict skips loading; otherwise the fields are assigned in source
order, and a failing `int`/`float` coercion raises, which the
surrounding `except` turns into returning the config as assigned so
far. -/
def load_config (addon_config : PyVal) : VolumeConfig :=
  let vc : VolumeConfig := {}
  match addon_config with
  | .vDict d =>
    if d.isEmpty then vc
    else
      match pyInt (dictGet d "volume" (.vInt 100)) with
      | none => vc
      | some v =>
        let vc := { vc with volume := v }
        let vc := { vc with is_muted := pyBool (dictGet d "is_muted" (.vBool false)) }
        let vc := { vc with
          allow_volume_boost := pyBool (dictGet d "allow_volume_boost" (.vBool false)) }
        match pyFloat (dictGet d "playback_speed" (.vFloat 1)) with
        | none => vc
        | some ps =>
          let vc := { vc with playback_speed := ps }
          let vc := { vc with mute_shortcut := load_shortcut d "mute_shortcut" }
          let vc := { vc with settings_shortcut := load_shortcut d "settings_shortcut" }
          let vc := { vc with volume_up_shortcut := load_shortcut d "volume_up_shortcut" }
          let vc := { vc with volume_down_shortcut := load_shortcut d "volume_down_shortcut" }
          let vc := { vc with speed_up_shortcut := load_shortcut d "speed_up_shortcut" }
          let vc := { vc with speed_down_shortcut := load_shortcut d "speed_down_shortcut" }
          load_loudnorm (dictGet d "loudnorm" (.vDict [])) vc
  | _ => vc

/-- A value passed to `player.set_property` in `hook.py`. -/
inductive PropValue where
  | pInt (n : Int)
  | pStr (s : String)
  | pRat (q : Rat)
deriving DecidableEq

/-- Function `did_begin_playing` from `hook.py`, modelled as the ordered list of
`set_property` calls it makes for a given loaded configuration. The
effective volume is 0 when muted; when muted or at effective volume 0
the audio filter is cleared and the function returns early, otherwise
the filter is configured and the playback speed is set. -/
def did_begin_playing (vc : VolumeConfig) : List (String × PropValue) :=
  let actual_volume : Int := if vc.is_muted then 0 else vc.volume
  let calls := [("volume", PropValue.pInt actual_volume)]
  if vc.is_muted = true ∨ actual_volume = 0 then
    calls ++ [("af", PropValue.pStr "")]
  else
    let af_call : String × PropValue :=
      if vc.loudnorm.enabled then
        ("af", PropValue.pStr ("loudnorm=I=" ++ toString vc.loudnorm.i ++
          ":dual_mono=" ++ (if vc.loudnorm.dual_mono then "true" else "false")))
      else
        ("af", PropValue.pStr "")
    calls ++ [af_call, ("speed", PropValue.pRat vc.playback_speed)]

/-- Function `adjust_volume` from `ui.py`, as the pure transformation of the
loaded configuration it saves back: the new volume is the delta-shifted
volume clamped to `[0, max_volume]` (the oversized-delta clamp happens
after `new_volume` is computed, as in the source), and the mute flag
follows the three-way rule chain. -/
def adjust_volume (vc : VolumeConfig) (delta : Int) : VolumeConfig :=
  let max_volume : Int := if vc.allow_volume_boost then 200 else 100
  let new_volume := max 0 (min max_volume (vc.volume + delta))
  let delta := if |delta| > max_volume then
    (if delta > 0 then max_volume else -max_volume) else delta
  let vc :=
    if new_volume = 0 then { vc with is_muted := true }
    else if vc.volume = 0 ∧ new_volume > 0 then { vc with is_muted := false }
    else if delta > 0 ∧ vc.is_muted then { vc with is_muted := false }
    else vc
  { vc with volume := new_volume }

/-- The fixed playback-speed step table `SPEED_STEPS` from `ui.py`:
`[0.25, 0.5, 0.6, 0.7, 0.8, 0.9, 1.0, 1.1, 1.2, 1.3, 1.4, 1.5, 1.75, 2.0]`,
written as exact hundredths. -/
def SPEED_STEPS : List Rat :=
  [mkRat 25 100, mkRat 50 100, mkRat 60 100, mkRat 70 100, mkRat 80 100,
   mkRat 90 100, mkRat 100 100, mkRat 110 100, mkRat 120 100, mkRat 130 100,
   mkRat 140 100, mkRat 150 100, mkRat 175 100, mkRat 200 100]

/-- Function `_get_nearest_speed` from `ui.py`: the first table entry strictly
above the current speed when increasing (the last entry if none), the
first entry of the reversed table strictly below when decreasing (the
first entry if none). -/
def _get_nearest_speed (current_speed : Rat) (increase : Bool) : Rat :=
  if increase then
    match SPEED_STEPS.find? (fun speed => decide (current_speed < speed)) with
    | some speed => speed
    | none => SPEED_STEPS.getLastD 0
  else
    match SPEED_STEPS.reverse.find? (fun speed => decide (speed < current_speed)) with
    | some speed => speed
    | none => SPEED_STEPS.headD 0

/-- Function `toggle_mute` from `ui.py`, as a pure function of the loaded store:
returns the store after the call together with whether a save happened.
Volume above 0 flips the mute flag and saves; otherwise nothing is
saved. -/
def toggle_mute (store : VolumeConfig) : VolumeConfig × Bool :=
  if store.volume > 0 then
    ({ store with is_muted := !store.is_muted }, true)
  else
    (store, false)

/-- Outcome of `VolumeDialog.on_volume_boost_changed`: whether the boost
warning was shown, the session boost flag, the new slider/spin-box
maximum and the (possibly clamped) slider value. -/
structure BoostChangeOutcome where
  warned : Bool
  session_boost : Bool
  max_volume : Int
  volume : Int
deriving DecidableEq

/-- Method `VolumeDialog.on_volume_boost_changed` from `ui.py`: warns when
boost is being enabled and was not enabled in the current session,
updates the session flag and the widget maximum, and clamps the current
volume to 100 when boost is disabled with volume above 100. -/
def on_volume_boost_changed (session_boost : Bool) (current_volume : Int)
    (state : Bool) : BoostChangeOutcome :=
  let allow_boost := state
  let warned := allow_boost && !session_boost
  let max_volume : Int := if allow_boost then 200 else 100
  if allow_boost = false ∧ current_volume > 100 then
    { warned := warned, session_boost := allow_boost,
      max_volume := max_volume, volume := 100 }
  else
    { warned := warned, session_boost := allow_boost,
      max_volume := max_volume, volume := current_volume }

/-- A non-empty key sequence held by a `QKeySequenceEdit`: whether its
first combination carries a modifier, and its canonical string form. -/
structure KeyBinding where
  hasModifier : Bool
  keyString : String
deriving DecidableEq

/-- The six shortcut editors of `VolumeDialog`, in the insertion order
of `shortcut_editors`; `none` models an empty key sequence. -/
structure ShortcutEditors where
  volume_up : Option KeyBinding
  volume_down : Option KeyBinding
  mute : Option KeyBinding
  settings : Option KeyBinding
  speed_up : Option KeyBinding
  speed_down : Option KeyBinding
deriving DecidableEq

/-- The editors in the iteration order of `shortcut_editors.values()`. -/
def ShortcutEditors.toList (e : ShortcutEditors) : List (Option KeyBinding) :=
  [e.volume_up, e.volume_down, e.mute, e.settings, e.speed_up, e.speed_down]

/-- First validation loop of `VolumeDialog.accept`: every non-empty
sequence must include a modifier key; the loop returns early (`false`)
at the first offender. -/
def checkModifiers : List (Option KeyBinding) → Bool
  | [] => true
  | none :: rest => checkModifiers rest
  | some b :: rest => if b.hasModifier then checkModifiers rest else false

/-- Second validation loop of `VolumeDialog.accept`: the string forms of
the non-empty sequences are collected into `used_shortcuts`; a repeat
returns early (`false`). -/
def checkDuplicates : List (Option KeyBinding) → List String → Bool
  | [], _ => true
  | none :: rest, used => checkDuplicates rest used
  | some b :: rest, used =>
    if b.keyString ∈ used then false else checkDuplicates rest (b.keyString :: used)

/-- The value of `keySequence().toString() or ""` for an editor. -/
def editorString : Option KeyBinding → String
  | none => ""
  | some b => b.keyString

/-- The widget state of `VolumeDialog` read by `accept`. -/
structure DialogWidgets where
  editors : ShortcutEditors
  volume_slider : Int
  mute_checked : Bool
  boost_checked : Bool
  speed_slider : Int
  loudnorm_checked : Bool
  i_spin : Int
  dual_mono_checked : Bool

/-- The configuration `VolumeDialog.accept` builds on success: the
loaded config with every field overwritten from the widgets (the speed
slider holds the speed as a percentage). -/
def accept_config (w : DialogWidgets) (loaded : VolumeConfig) : VolumeConfig :=
  { loaded with
    volume := w.volume_slider
    is_muted := w.mute_checked
    allow_volume_boost := w.boost_checked
    playback_speed := mkRat w.speed_slider 100
    volume_up_shortcut := editorString w.editors.volume_up
    volume_down_shortcut := editorString w.editors.volume_down
    mute_shortcut := editorString w.editors.mute
    settings_shortcut := editorString w.editors.settings
    speed_up_shortcut := editorString w.editors.speed_up
    speed_down_shortcut := editorString w.editors.speed_down
    loudnorm := { enabled := w.loudnorm_checked, i := w.i_spin,
                  dual_mono := w.dual_mono_checked } }

/-- Python `s.isspace()`: non-empty and all whitespace. -/
def pyIsSpace (s : String) : Bool :=
  s != "" && s.toList.all Char.isWhitespace

/-- The key strings `setup_shortcuts` actually registers for a saved
configuration, in registration order: empty or all-whitespace strings
are skipped by `register_shortcut`. -/
def registered_keys (vc : VolumeConfig) : List String :=
  [vc.volume_up_shortcut, vc.volume_down_shortcut, vc.mute_shortcut,
   vc.settings_shortcut, vc.speed_up_shortcut, vc.speed_down_shortcut].filter
    (fun key => !(key == "" || pyIsSpace key))

/-- The persistent state `VolumeDialog.accept` can modify: the saved
configuration and the live shortcut registrations. -/
structure SystemState where
  store : VolumeConfig
  live : List String
deriving DecidableEq

/-- Method `VolumeDialog.accept` from `ui.py`, over the persistent state: both
validation loops must pass, otherwise the method returns early with the
store and live registrations untouched; on success the config built
from the widgets is saved and the shortcuts re-registered from it. The
returned flag tells whether the commit happened. -/
def VolumeDialog.accept (w : DialogWidgets) (s : SystemState) :
    SystemState × Bool :=
  if checkModifiers w.editors.toList then
    if checkDuplicates w.editors.toList [] then
      let cfg := accept_config w s.store
      ({ store := cfg, live := registered_keys cfg }, true)
    else (s, false)
  else (s, false)

/-- C4: for every current speed on the step table, `_get_nearest_speed`
returns the smallest table entry strictly greater when increasing and
the largest entry strictly smaller when decreasing, is idempotent at the
table boundaries, and in particular maps 1.0 up to 1.1, 2.0 up to 2.0
and 0.25 down to 0.25. -/
theorem c4_nearest_speed_on_table :
    (∀ c ∈ SPEED_STEPS,
      (c ≠ 2 → _get_nearest_speed c true ∈ SPEED_STEPS ∧
        c < _get_nearest_speed c true ∧
        ∀ s ∈ SPEED_STEPS, c < s → _get_nearest_speed c true ≤ s) ∧
      (c = 2 → _get_nearest_speed c true = c) ∧
      (c ≠ mkRat 25 100 → _get_nearest_speed c false ∈ SPEED_STEPS ∧
        _get_nearest_speed c false < c ∧
        ∀ s ∈ SPEED_STEPS, s < c → s ≤ _get_nearest_speed c false) ∧
      (c = mkRat 25 100 → _get_nearest_speed c false = c)) ∧
    _get_nearest_speed 1 true = mkRat 110 100 ∧
    _get_nearest_speed 2 true = 2 ∧
    _get_nearest_speed (mkRat 25 100) false = mkRat 25 100 := by decide

/-- C5: `toggle_mute` at volume 0 saves nothing and leaves the store
unchanged; at positive volume it flips the mute flag and saves. -/
theorem c5_toggle_mute_zero_noop (vc : VolumeConfig) :
    (vc.volume = 0 → toggle_mute vc = (vc, false)) ∧
    (vc.volume > 0 →
      toggle_mute vc = ({ vc with is_muted := !vc.is_muted }, true)) := by
  constructor
  · intro h
    simp [toggle_mute, h]
  · intro h
    simp [toggle_mute, h]

/-- Witness for C5 at volume 0 and at the default volume 100. -/
theorem c5_toggle_mute_zero_noop_witness :
    toggle_mute { VolumeConfig.default with volume := 0 } =
      ({ VolumeConfig.default with volume := 0 }, false) ∧
    toggle_mute VolumeConfig.default =
      ({ VolumeConfig.default with is_muted := !VolumeConfig.default.is_muted },
        true) :=
  ⟨(c5_toggle_mute_zero_noop _).1 (by decide),
   (c5_toggle_mute_zero_noop _).2 (by decide)⟩

/-- C8: disabling boost clamps a current volume above 100 to 100 in the
same transition, leaves a volume at most 100 unchanged, and maps 150 to
100, for every session state. -/
theorem c8_boost_disable_clamps (session_boost : Bool) (v : Int) :
    (v > 100 → (on_volume_boost_changed session_boost v false).volume = 100) ∧
    (v ≤ 100 → (on_volume_boost_changed session_boost v false).volume = v) ∧
    (on_volume_boost_changed session_boost 150 false).volume = 100 := by
  refine ⟨fun h => ?_, fun h => ?_, ?_⟩
  · simp only [on_volume_boost_changed]
    rw [if_pos ⟨by trivial, h⟩]
  · simp only [on_volume_boost_changed]
    rw [if_neg (fun hc => absurd hc.2 (not_lt.2 h))]
  · simp only [on_volume_boost_changed]
    rw [if_pos ⟨by trivial, by norm_num⟩]

/-- Witness for C8 at volumes 150 and 50. -/
theorem c8_boost_disable_clamps_witness :
    (on_volume_boost_changed false 150 false).volume = 100 ∧
    (on_volume_boost_changed false 50 false).volume = 50 :=
  ⟨(c8_boost_disable_clamps false 150).1 (by decide),
   (c8_boost_disable_clamps false 50).2.1 (by decide)⟩

/-- C10: `adjust_volume` changes only the volume and mute fields; the
playback speed, the loudnorm section, the boost flag and all six
shortcut strings of the saved configuration equal the loaded ones. -/
theorem c10_adjust_volume_frame (vc : VolumeConfig) (delta : Int) :
    (adjust_volume vc delta).playback_speed = vc.playback_speed ∧
    (adjust_volume vc delta).loudnorm = vc.loudnorm ∧
    (adjust_volume vc delta).allow_volume_boost = vc.allow_volume_boost ∧
    (adjust_volume vc delta).mute_shortcut = vc.mute_shortcut ∧
    (adjust_volume vc delta).settings_shortcut = vc.settings_shortcut ∧
    (adjust_volume vc delta).volume_up_shortcut = vc.volume_up_shortcut ∧
    (adjust_volume vc delta).volume_down_shortcut = vc.volume_down_shortcut ∧
    (adjust_volume vc delta).speed_up_shortcut = vc.speed_up_shortcut ∧
    (adjust_volume vc delta).speed_down_shortcut = vc.speed_down_shortcut := by
  simp only [adjust_volume]
  split_ifs <;> simp

/-- C6: starting from a volume in `[0, maxVolume]`, the volume after
`adjust_volume` stays in `[0, maxVolume]`, where `maxVolume` is 200
exactly when boost is allowed and 100 otherwise. -/
theorem c6_adjust_volume_range (vc : VolumeConfig) (delta : Int)
    (h0 : 0 ≤ vc.volume)
    (h1 : vc.volume ≤ (if vc.allow_volume_boost then 200 else 100)) :
    0 ≤ (adjust_volume vc delta).volume ∧
    (adjust_volume vc delta).volume ≤
      (if vc.allow_volume_boost then 200 else 100) := by
  have hv : (adjust_volume vc delta).volume =
      max 0 (min (if vc.allow_volume_boost then 200 else 100)
        (vc.volume + delta)) := by
    simp only [adjust_volume]
  rw [hv]
  refine ⟨le_max_left _ _, max_le ?_ (min_le_left _ _)⟩
  split_ifs <;> norm_num

/-- Witness for C6 at the default configuration and delta 30. -/
theorem c6_adjust_volume_range_witness :
    0 ≤ (adjust_volume VolumeConfig.default 30).volume ∧
    (adjust_volume VolumeConfig.default 30).volume ≤
      (if VolumeConfig.default.allow_volume_boost then 200 else 100) :=
  c6_adjust_volume_range VolumeConfig.default 30 (by decide) (by decide)

/-- A configuration that is muted while its stored volume is 50. -/
def muted_playing_config : VolumeConfig :=
  { VolumeConfig.default with volume := 50, is_muted := true }

/-- C2 fails on the code: with a muted configuration the hook clears the
audio filter and returns early, so no `speed` property is ever set. -/
theorem c2_counterexample :
    muted_playing_config.is_muted = true ∧
    ((did_begin_playing muted_playing_config).map Prod.fst).contains "speed"
      = false ∧
    (did_begin_playing muted_playing_config).contains
      ("af", PropValue.pStr "") = true := by decide

/-- C2 amended: the hook sets the playback speed only in the audible
branch; when muted or at volume 0 it sets volume 0, clears the audio
filter and returns without setting the speed. -/
theorem c2_amended_speed_only_when_audible (vc : VolumeConfig) :
    ((vc.is_muted = true ∨ vc.volume = 0) →
      did_begin_playing vc =
        [("volume", PropValue.pInt 0), ("af", PropValue.pStr "")]) ∧
    (vc.is_muted = false → vc.volume ≠ 0 →
      ("speed", PropValue.pRat vc.playback_speed) ∈ did_begin_playing vc) := by
  constructor
  · rintro (h | h)
    · simp [did_begin_playing, h]
    · cases hm : vc.is_muted <;> simp [did_begin_playing, h, hm]
  · intro h1 h2
    simp [did_begin_playing, h1, h2]

/-- Witness for the amended C2: the muted configuration gets the silent
trace, the default configuration gets its speed set. -/
theorem c2_amended_witness :
    did_begin_playing muted_playing_config =
      [("volume", PropValue.pInt 0), ("af", PropValue.pStr "")] ∧
    ("speed", PropValue.pRat VolumeConfig.default.playback_speed) ∈
      did_begin_playing VolumeConfig.default :=
  ⟨(c2_amended_speed_only_when_audible muted_playing_config).1
      (Or.inl (by decide)),
   (c2_amended_speed_only_when_audible VolumeConfig.default).2
      (by decide) (by decide)⟩

/-- C3: the mute flag after `adjust_volume` follows the priority rules:
muted when the new (clamped) volume is 0; unmuted when coming off
volume 0 to a positive volume; unmuted on any positive delta while
muted; otherwise unchanged. -/
theorem c3_mute_priority (vc : VolumeConfig) (delta : Int) :
    (adjust_volume vc delta).is_muted =
      (if max 0 (min (if vc.allow_volume_boost then 200 else 100)
            (vc.volume + delta)) = 0 then true
       else if vc.volume = 0 ∧
           0 < max 0 (min (if vc.allow_volume_boost then 200 else 100)
             (vc.volume + delta)) then false
       else if 0 < delta ∧ vc.is_muted = true then false
       else vc.is_muted) := by
  rcases abs_cases delta with ⟨ha, hd⟩ | ⟨ha, hd⟩ <;>
    cases hb : vc.allow_volume_boost <;> cases hm : vc.is_muted <;>
      simp [adjust_volume, ha, hb, hm] <;>
        split_ifs <;> simp_all

/-- A raw config mapping with a valid volume of 50 and a non-numeric
playback speed. -/
def bad_speed_config : List (String × PyVal) :=
  [("volume", .vInt 50), ("playback_speed", .vStr "fast")]

/-- A raw config mapping whose volume is the non-numeric string `"a"`
alongside a valid mute flag. -/
def bad_volume_config : List (String × PyVal) :=
  [("volume", .vStr "a"), ("is_muted", .vBool true)]

/-- C1 fails on the code: with a non-numeric `playback_speed` and a
valid stored volume of 50, the exception is raised only after the
volume was assigned, so the load keeps volume 50 instead of returning
the all-defaults configuration. -/
theorem c1_counterexample :
    pyFloat (dictGet bad_speed_config "playback_speed" (.vFloat 1)) = none ∧
    load_config (.vDict bad_speed_config) ≠ VolumeConfig.default ∧
    (load_config (.vDict bad_speed_config)).volume = 50 := by decide

/-- C1 amended: a non-numeric `volume` value makes the whole load fall
back to all defaults regardless of the other fields, but a non-numeric
`playback_speed` (with a numeric volume) keeps the already-assigned
volume, mute and boost values and defaults only the remaining fields. -/
theorem c1_amended_fallback (d : List (String × PyVal)) :
    (pyInt (dictGet d "volume" (.vInt 100)) = none →
      load_config (.vDict d) = VolumeConfig.default) ∧
    (∀ v : Int, pyInt (dictGet d "volume" (.vInt 100)) = some v →
      pyFloat (dictGet d "playback_speed" (.vFloat 1)) = none →
      load_config (.vDict d) =
        { VolumeConfig.default with
          volume := v
          is_muted := pyBool (dictGet d "is_muted" (.vBool false))
          allow_volume_boost :=
            pyBool (dictGet d "allow_volume_boost" (.vBool false)) }) := by
  constructor
  · intro h
    cases d with
    | nil => exact absurd h (by decide)
    | cons p rest => simp [load_config, h, VolumeConfig.default]
  · intro v hv hs
    cases d with
    | nil => exact absurd hs (by decide)
    | cons p rest => simp [load_config, hv, hs, VolumeConfig.default]

/-- Witness for the amended C1: the bad-volume mapping loads as all
defaults; the bad-speed mapping keeps its volume 50. -/
theorem c1_amended_fallback_witness :
    load_config (.vDict bad_volume_config) = VolumeConfig.default ∧
    load_config (.vDict bad_speed_config) =
      { VolumeConfig.default with
        volume := 50
        is_muted := pyBool (dictGet bad_speed_config "is_muted" (.vBool false))
        allow_volume_boost :=
          pyBool (dictGet bad_speed_config "allow_volume_boost" (.vBool false)) } :=
  ⟨(c1_amended_fallback bad_volume_config).1 (by decide),
   (c1_amended_fallback bad_speed_config).2 50 (by decide) (by decide)⟩

/-- The canonical strings of the non-empty bindings of an editor list,
in order. -/
def editorKeys (l : List (Option KeyBinding)) : List String :=
  l.filterMap (fun e => e.map KeyBinding.keyString)

lemma checkModifiers_iff (l : List (Option KeyBinding)) :
    checkModifiers l = true ↔ ∀ b, some b ∈ l → b.hasModifier = true := by
  induction l with
  | nil => simp [checkModifiers]
  | cons e rest ih =>
    cases e with
    | none => simp [checkModifiers, ih]
    | some b => by_cases hb : b.hasModifier <;> simp [checkModifiers, hb, ih]

lemma checkDuplicates_iff (l : List (Option KeyBinding)) (used : List String) :
    checkDuplicates l used = true ↔
      (editorKeys l).Nodup ∧ ∀ k ∈ editorKeys l, k ∉ used := by
  induction l generalizing used with
  | nil => simp [checkDuplicates, editorKeys]
  | cons e rest ih =>
    cases e with
    | none => simp [checkDuplicates, editorKeys, ih]
    | some b =>
      by_cases hmem : b.keyString ∈ used
      · simp [checkDuplicates, hmem, editorKeys]
      · simp only [checkDuplicates, if_neg hmem, ih, editorKeys,
          List.filterMap_cons, Option.map_some', List.nodup_cons,
          List.mem_cons, List.forall_mem_cons]
        constructor
        · rintro ⟨hnd, hall⟩
          refine ⟨⟨fun hsR => (hall _ hsR) (Or.inl rfl), hnd⟩, fun k hk => ?_⟩
          rcases hk with he | hkR
          · exact he ▸ hmem
          · exact fun hku => (hall k hkR) (Or.inr hku)
        · rintro ⟨⟨hsR, hnd⟩, hall⟩
          refine ⟨hnd, fun k hkR hor => ?_⟩
          rcases hor with he | hku
          · exact hsR (he ▸ hkR)
          · exact (hall k (Or.inr hkR)) hku

/-- C7: committing the settings dialog is all-or-nothing — if any
non-empty binding lacks a modifier or two editors hold the same key
string, `accept` leaves the store and the live registrations untouched;
when every binding has a modifier and the key strings are pairwise
distinct, the widget-built configuration is saved and the shortcuts are
re-registered from it. -/
theorem c7_accept_atomic (w : DialogWidgets) (s : SystemState) :
    ((∃ b, some b ∈ w.editors.toList ∧ b.hasModifier = false) ∨
        ¬ (editorKeys w.editors.toList).Nodup →
      VolumeDialog.accept w s = (s, false)) ∧
    ((∀ b, some b ∈ w.editors.toList → b.hasModifier = true) ∧
        (editorKeys w.editors.toList).Nodup →
      VolumeDialog.accept w s =
        ({ store := accept_config w s.store,
           live := registered_keys (accept_config w s.store) }, true)) := by
  constructor
  · intro h
    rcases h with ⟨b, hb1, hb2⟩ | h
    · have hcm : checkModifiers w.editors.toList = false := by
        cases hcm : checkModifiers w.editors.toList with
        | false => rfl
        | true =>
          exact absurd ((checkModifiers_iff _).1 hcm b hb1) (by simp [hb2])
      simp [VolumeDialog.accept, hcm]
    · have hcd : checkDuplicates w.editors.toList [] = false := by
        cases hcd : checkDuplicates w.editors.toList [] with
        | false => rfl
        | true => exact absurd ((checkDuplicates_iff _ _).1 hcd).1 h
      cases hcm : checkModifiers w.editors.toList <;>
        simp [VolumeDialog.accept, hcm, hcd]
  · rintro ⟨hmods, hnodup⟩
    have hcm : checkModifiers w.editors.toList = true :=
      (checkModifiers_iff _).2 hmods
    have hcd : checkDuplicates w.editors.toList [] = true :=
      (checkDuplicates_iff _ _).2 ⟨hnodup, by simp⟩
    simp [VolumeDialog.accept, hcm, hcd]

/-- Dialog widgets binding two different actions to the same key
string. -/
def dup_widgets : DialogWidgets :=
  { editors :=
      { volume_up := some ⟨true, "Ctrl+A"⟩
        volume_down := some ⟨true, "Ctrl+A"⟩
        mute := none
        settings := none
        speed_up := none
        speed_down := none }
    volume_slider := 80
    mute_checked := false
    boost_checked := false
    speed_slider := 150
    loudnorm_checked := false
    i_spin := -24
    dual_mono_checked := false }

/-- Dialog widgets with one well-formed binding. -/
def ok_widgets : DialogWidgets :=
  { editors :=
      { volume_up := some ⟨true, "Ctrl+Up"⟩
        volume_down := none
        mute := none
        settings := none
        speed_up := none
        speed_down := none }
    volume_slider := 80
    mute_checked := false
    boost_checked := false
    speed_slider := 150
    loudnorm_checked := false
    i_spin := -24
    dual_mono_checked := false }

/-- The system state the dialog commits against in the witnesses. -/
def initial_state : SystemState :=
  { store := VolumeConfig.default, live := [] }

/-- Witness for C7: a duplicate binding leaves the state untouched; a
valid set commits the widget configuration and its registrations. -/
theorem c7_accept_atomic_witness :
    VolumeDialog.accept dup_widgets initial_state = (initial_state, false) ∧
    VolumeDialog.accept ok_widgets initial_state =
      ({ store := accept_config ok_widgets initial_state.store,
         live := registered_keys (accept_config ok_widgets initial_state.store) },
        true) :=
  ⟨(c7_accept_atomic dup_widgets initial_state).1 (Or.inr (by decide)),
   (c7_accept_atomic ok_widgets initial_state).2
     ⟨fun b hb => by
        simp [ok_widgets, ShortcutEditors.toList] at hb
        rw [hb], by decide⟩⟩

lemma dictSet_cons (p : String × PyVal) (rest : List (String × PyVal))
    (k : String) (v : PyVal) :
    dictSet (p :: rest) k v =
      (if p.1 = k then (p.1, v) else p) :: dictSet rest k v := rfl

lemma dictGet_dictSet_ne (d : List (String × PyVal)) (k k' : String)
    (v dflt : PyVal) (h : k' ≠ k) :
    dictGet (dictSet d k v) k' dflt = dictGet d k' dflt := by
  induction d with
  | nil => rfl
  | cons p rest ih =>
    rw [dictSet_cons]
    by_cases hp : p.1 = k
    · have hk' : ¬ p.1 = k' := fun hh => h (hh ▸ hp)
      rw [if_pos hp]
      simp only [dictGet]
      rw [if_neg hk', if_neg hk', ih]
    · rw [if_neg hp]
      simp only [dictGet]
      by_cases hq : p.1 = k'
      · rw [if_pos hq, if_pos hq]
      · rw [if_neg hq, if_neg hq, ih]

lemma dictGet_dictSet_self (d : List (String × PyVal)) (k : String)
    (v dflt : PyVal) (h : dictLookup d k ≠ none) :
    dictGet (dictSet d k v) k dflt = v := by
  induction d with
  | nil => exact absurd rfl h
  | cons p rest ih =>
    rw [dictSet_cons]
    by_cases hp : p.1 = k
    · rw [if_pos hp]
      simp only [dictGet]
      rw [if_pos hp]
    · rw [if_neg hp]
      simp only [dictGet]
      rw [if_neg hp]
      refine ih ?_
      simpa only [dictLookup, if_neg hp] using h

lemma dictGet_eq_of_lookup (d : List (String × PyVal)) (k : String)
    (v dflt : PyVal) (h : dictLookup d k = some v) :
    dictGet d k dflt = v := by
  induction d with
  | nil => cases h
  | cons p rest ih =>
    by_cases hp : p.1 = k
    · simp only [dictLookup, if_pos hp] at h
      simp [dictGet, hp, Option.some_inj.1 h]
    · simp only [dictLookup, if_neg hp] at h
      simp [dictGet, hp, ih h]

lemma dictSet_isEmpty (d : List (String × PyVal)) (k : String) (v : PyVal) :
    (dictSet d k v).isEmpty = d.isEmpty := by
  cases d <;> simp [dictSet]

lemma load_loudnorm_not_dict (v : PyVal) (hnd : v.isDict = false)
    (vc : VolumeConfig) : load_loudnorm v vc = vc := by
  cases v <;> first | rfl | simp [PyVal.isDict] at hnd

/-- C9: when the stored `loudnorm` value is not a dict, the load keeps
the whole loudnorm section at its defaults and every other field loads
exactly as it would if the `loudnorm` entry held an empty dict (i.e.
the anomaly is confined to the loudnorm section). -/
theorem c9_loudnorm_section_isolated (d : List (String × PyVal)) (v : PyVal)
    (hv : dictLookup d "loudnorm" = some v) (hnd : v.isDict = false) :
    (load_config (.vDict d)).loudnorm = LoudnormConfig.default ∧
    load_config (.vDict d) =
      load_config (.vDict (dictSet d "loudnorm" (.vDict []))) := by
  have hget : dictGet d "loudnorm" (.vDict []) = v :=
    dictGet_eq_of_lookup d _ v _ hv
  have hset : dictGet (dictSet d "loudnorm" (.vDict [])) "loudnorm"
      (.vDict []) = .vDict [] :=
    dictGet_dictSet_self d _ _ _ (by rw [hv]; simp)
  have hde : d.isEmpty = false := by
    cases d
    · simp [dictLookup] at hv
    · rfl
  have hde' : (dictSet d "loudnorm" (.vDict [])).isEmpty = false := by
    rw [dictSet_isEmpty, hde]
  have hsc : ∀ k : String, k ≠ "loudnorm" →
      load_shortcut (dictSet d "loudnorm" (.vDict [])) k = load_shortcut d k := by
    intro k hk
    simp [load_shortcut, dictGet_dictSet_ne d _ k _ _ hk]
  simp only [load_config, hde, hde', Bool.false_eq_true, if_false,
    dictGet_dictSet_ne d "loudnorm" "volume" (.vDict []) (.vInt 100) (by decide),
    dictGet_dictSet_ne d "loudnorm" "is_muted" (.vDict []) (.vBool false) (by decide),
    dictGet_dictSet_ne d "loudnorm" "allow_volume_boost" (.vDict [])
      (.vBool false) (by decide),
    dictGet_dictSet_ne d "loudnorm" "playback_speed" (.vDict [])
      (.vFloat 1) (by decide),
    hsc "mute_shortcut" (by decide), hsc "settings_shortcut" (by decide),
    hsc "volume_up_shortcut" (by decide), hsc "volume_down_shortcut" (by decide),
    hsc "speed_up_shortcut" (by decide), hsc "speed_down_shortcut" (by decide),
    hget, hset]
  cases h1 : pyInt (dictGet d "volume" (.vInt 100)) with
  | none => exact ⟨rfl, rfl⟩
  | some v1 =>
    cases h2 : pyFloat (dictGet d "playback_speed" (.vFloat 1)) with
    | none => exact ⟨rfl, rfl⟩
    | some ps =>
      simp only [load_loudnorm_not_dict v hnd]
      exact ⟨rfl, rfl⟩

/-- A raw config mapping holding a non-dict `loudnorm` value next to a
valid volume. -/
def bad_loudnorm_config : List (String × PyVal) :=
  [("volume", .vInt 70), ("loudnorm", .vStr "not a dict")]

/-- Witness for C9 at a mapping whose `loudnorm` entry is a string. -/
theorem c9_loudnorm_section_isolated_witness :
    (load_config (.vDict bad_loudnorm_config)).loudnorm =
      LoudnormConfig.default ∧
    load_config (.vDict bad_loudnorm_config) =
      load_config
        (.vDict (dictSet bad_loudnorm_config "loudnorm" (.vDict []))) :=
  c9_loudnorm_section_isolated bad_loudnorm_config (.vStr "not a dict")
    (by rfl) (by rfl)
